import Mathlib

/-
  A shallow embedding of the host-side decoder lifecycle of decode.c
  (libsigrokdecode): the decoder registry (`list_pds`), the active-instance
  list (`decoders`), the session start/feed loops, and the synthesized
  timebase (`_timehack`, a C `static int` local to `srd_run_decoder`).

  The Python/C boundary is modelled abstractly: a scripted object offers
  attribute lookup (for the eight metadata strings and the `probes` mapping),
  a zero-argument factory call, and `start`/`decode` method invocations that
  either succeed or raise.  Memory allocation is modelled as always
  succeeding.  `exit(1)` in `srd_session_feed` is modelled by the
  `FeedResult.exited` outcome.
-/

namespace Sigrokdecode

/-
  Status / error codes.  `SRD_OK` and the negative error constants are
  declared in the library header `sigrokdecode.h`, which is not among the
  provided sources; decode.c only uses them by name.
-/

/-- `SRD_OK`: success status code. -/
def SRD_OK : Int := 0

/-- Modelled from the spec: `ALLOC` error kind (`SRD_ERR_MALLOC` in the
header, not among the provided sources); a distinct negative code. -/
def SRD_ERR_MALLOC : Int := -2

/-- Modelled from the spec: `ARGS` error kind (`SRD_ERR_ARGS`). -/
def SRD_ERR_ARGS : Int := -3

/-- Modelled from the spec: `SCRIPT` error kind (`SRD_ERR_PYTHON`), raised
for any failure signalled by the scripting boundary. -/
def SRD_ERR_PYTHON : Int := -4

/-- Modelled from the spec: `DECODERS_DIR` error kind. -/
def SRD_ERR_DECODERS_DIR : Int := -5

/-- Modelled from the spec: `SCRIPT_METADATA` error kind, named in the
spec as a distinct error kind from `SCRIPT`; decode.c never produces it. -/
def SRD_ERR_SCRIPT_METADATA : Int := -6

/-- Two's-complement wrap into the range of a 32-bit C `int`.  The counter
`_timehack` is a C `int`; `_timehack += inbuflen` (with `inbuflen` a
`uint64_t`) stores the low 32 bits, two's complement. -/
def wrap32 (x : Int) : Int := (x + 2 ^ 31) % 2 ^ 32 - 2 ^ 31

/-- Result of a Python attribute lookup: the attribute is missing, is a
string object, or is some non-string object. -/
inductive PyAttr where
  | missing
  | str (s : String)
  | nonstr
deriving DecidableEq

/-- Whether an attribute lookup produced a string object
(`PyString_Check`). -/
def PyAttr.isStr : PyAttr → Bool
  | PyAttr.str _ => true
  | _ => false

/-- The probes mapping attribute of a scripted instance: a Python dict from
probe name to channel index, modelled as an association list in insertion
order (first match wins on lookup). -/
abbrev ProbeMap := List (String × Int)

/-- The structured record passed to a `decode` invocation:
`{time, duration, data}` (`PyObject_CallMethod` format `{s:i,s:i,s:s#}`). -/
structure DecodeRecord where
  time : Int
  duration : Int
  data : List Nat
deriving DecidableEq

/-- The structured record passed to a `start` invocation:
`{driver, unitsize, starttime, samplerate}`. -/
structure StartRecord where
  driver : String
  unitsize : Int
  starttime : Int
  samplerate : Int
deriving DecidableEq

/-- Behaviour of one instantiated scripted decoder object, as observable
across the boundary: whether its `start` method call succeeds, whether its
`decode` method call succeeds on a given record, and its `probes`
attribute (`none` when the attribute lookup fails). -/
structure PyInstBeh where
  startOk : Bool
  decodeOk : DecodeRecord → Bool
  probes : Option ProbeMap

/-- A scripted candidate/factory object: attribute lookup (for the eight
metadata fields) and the result of calling it with zero arguments
(`none` when instantiation raises). -/
structure PyObj where
  attrs : String → PyAttr
  callObj : Option PyInstBeh

/-- `struct srd_decoder`: one registry entry.  The unused `func`,
`inputformats`, `outputformats` fields (always set to NULL) are omitted. -/
structure SrdDecoder where
  id : String
  name : String
  longname : String
  desc : String
  longdesc : String
  author : String
  email : String
  license : String
  py_decobj : PyObj

/-- `struct srd_decoder_instance`: one active instance.  `inst_id` models
the pointer identity of the instance (its creation index), used to record
which instance an invocation was delivered to. -/
structure SrdDecoderInstance where
  inst_id : Nat
  py_instance : PyInstBeh

/-- An observable invocation across the scripting boundary. -/
inductive Event where
  | decodeCall (inst : Nat) (rec : DecodeRecord)
  | startCall (inst : Nat) (meta : StartRecord)
deriving DecidableEq

/-- The instance an event was delivered to. -/
def Event.instOf : Event → Nat
  | Event.decodeCall i _ => i
  | Event.startCall i _ => i

/-- The `time` field delivered by a decode invocation (0 for start events,
which carry no time). -/
def Event.timeOf : Event → Int
  | Event.decodeCall _ r => r.time
  | Event.startCall _ _ => 0

/-- The mutable global state of decode.c: the registry `list_pds`, the
active-instance list `decoders`, and the `_timehack` static counter.
`next_id` models pointer freshness for newly allocated instances. -/
structure SrdState where
  list_pds : List SrdDecoder
  decoders : List SrdDecoderInstance
  timehack : Int
  next_id : Nat

/-- `srd_list_decoders`: returns the registry list. -/
def srd_list_decoders (st : SrdState) : List SrdDecoder :=
  st.list_pds

/-- `srd_get_decoder_by_id`: linear scan of the registry for the first
decoder whose `id` compares equal (`strcmp`); NULL (`none`) if not found. -/
def srd_get_decoder_by_id (pds : List SrdDecoder) (id : String) : Option SrdDecoder :=
  match pds with
  | [] => none
  | dec :: rest => if dec.id = id then some dec else srd_get_decoder_by_id rest id

/-- `h_str`: look up attribute `key` on `py_res`; fail with
`SRD_ERR_PYTHON` when the attribute is missing or not a string
(`PyString_Check`).  The `g_strdup` allocation-failure path
(`SRD_ERR_MALLOC`) is not modelled: allocation always succeeds. -/
def h_str (py_res : PyObj) (key : String) : Except Int String :=
  match py_res.attrs key with
  | PyAttr.str s => Except.ok s
  | _ => Except.error SRD_ERR_PYTHON

/-- `srd_load_decoder`: extract the eight metadata strings in source order,
returning the first `h_str` error unchanged (the partially-filled
allocation is leaked, never appended); on success append the new
descriptor to the registry. -/
def srd_load_decoder (st : SrdState) (py_res : PyObj) : Int × SrdState :=
  match h_str py_res "id" with
  | Except.error r => (r, st)
  | Except.ok idv =>
  match h_str py_res "name" with
  | Except.error r => (r, st)
  | Except.ok namev =>
  match h_str py_res "longname" with
  | Except.error r => (r, st)
  | Except.ok longnamev =>
  match h_str py_res "desc" with
  | Except.error r => (r, st)
  | Except.ok descv =>
  match h_str py_res "longdesc" with
  | Except.error r => (r, st)
  | Except.ok longdescv =>
  match h_str py_res "author" with
  | Except.error r => (r, st)
  | Except.ok authorv =>
  match h_str py_res "email" with
  | Except.error r => (r, st)
  | Except.ok emailv =>
  match h_str py_res "license" with
  | Except.error r => (r, st)
  | Except.ok licensev =>
    let d : SrdDecoder :=
      { id := idv, name := namev, longname := longnamev, desc := descv,
        longdesc := longdescv, author := authorv, email := emailv,
        license := licensev, py_decobj := py_res }
    (SRD_OK, { st with list_pds := st.list_pds ++ [d] })

/-- The eight required descriptor fields, in the order `srd_load_decoder`
extracts them. -/
def requiredKeys : List String :=
  ["id", "name", "longname", "desc", "longdesc", "author", "email", "license"]

/-- `srd_instance_new`: look up the decoder by id (NULL on miss), call its
factory with zero arguments (NULL on instantiation failure), and append
the new instance to the active-instance list (`g_slist_append`). -/
def srd_instance_new (st : SrdState) (id : String) :
    Option SrdDecoderInstance × SrdState :=
  match srd_get_decoder_by_id st.list_pds id with
  | none => (none, st)
  | some dec =>
    match dec.py_decobj.callObj with
    | none => (none, st)
    | some beh =>
      let di : SrdDecoderInstance := { inst_id := st.next_id, py_instance := beh }
      (some di, { st with decoders := st.decoders ++ [di], next_id := st.next_id + 1 })

/-- Python dict assignment (`PyMapping_SetItemString`): replace the value
in place when the key is present, else append the new pair. -/
def probeMapSet (m : List (String × Int)) (key : String) (v : Int) :
    List (String × Int) :=
  match m with
  | [] => [(key, v)]
  | (k0, v0) :: rest =>
    if k0 = key then (key, v) :: rest else (k0, v0) :: probeMapSet rest key v

/-- Python dict lookup: first entry with the matching key. -/
def probeLookup (m : List (String × Int)) (key : String) : Option Int :=
  match m with
  | [] => none
  | (k0, v0) :: rest => if k0 = key then some v0 else probeLookup rest key

/-- `srd_instance_set_probe`: fail with `SRD_ERR_PYTHON` when the `probes`
attribute lookup fails; otherwise set `probename ↦ num` in the mapping.
(The C code ignores the result of `PyMapping_SetItemString`.) -/
def srd_instance_set_probe (di : SrdDecoderInstance) (probename : String)
    (num : Int) : Int × SrdDecoderInstance :=
  match di.py_instance.probes with
  | none => (SRD_ERR_PYTHON, di)
  | some m =>
    (SRD_OK,
     { di with py_instance :=
        { di.py_instance with probes := some (probeMapSet m probename num) } })

/-- The probe index the scripted instance itself would read for `name`. -/
def probeOf (di : SrdDecoderInstance) (name : String) : Option Int :=
  match di.py_instance.probes with
  | none => none
  | some m => probeLookup m name

/-- The loop body of `srd_session_start`: invoke each instance's `start`
method, in list order, with the metadata record; the first failing
invocation aborts the loop with `SRD_ERR_PYTHON`. -/
def startLoop (insts : List SrdDecoderInstance) (meta : StartRecord) :
    Int × List Event :=
  match insts with
  | [] => (SRD_OK, [])
  | d :: rest =>
    if d.py_instance.startOk then
      let r := startLoop rest meta
      (r.1, Event.startCall d.inst_id meta :: r.2)
    else
      (SRD_ERR_PYTHON, [Event.startCall d.inst_id meta])

/-- `srd_session_start`: broadcast the metadata record to every active
instance in list order.  (The C code narrows the `uint64_t` arguments to
`long`; on the LP64 targets the library builds for this is the identity,
so the record carries the values unchanged.) -/
def srd_session_start (st : SrdState) (driver : String)
    (unitsize starttime samplerate : Int) : Int × List Event :=
  startLoop st.decoders
    { driver := driver, unitsize := unitsize, starttime := starttime,
      samplerate := samplerate }

/-- `srd_run_decoder`: FIRST advance the shared `_timehack` counter by
`inbuflen` (C `int` wrap-around), THEN validate the arguments
(`SRD_ERR_ARGS` on NULL instance, NULL buffer, or zero length), then
invoke the instance's `decode` method with
`{time := _timehack, duration := 10, data := inbuf[0..inbuflen)}`;
a raising invocation yields `SRD_ERR_PYTHON`.
Returns (status, new `_timehack`, invocation events). -/
def srd_run_decoder (dec : Option SrdDecoderInstance) (inbuf : Option (List Nat))
    (inbuflen : Nat) (timehack : Int) : Int × Int × List Event :=
  let th := wrap32 (timehack + inbuflen)
  match dec with
  | none => (SRD_ERR_ARGS, th, [])
  | some d =>
    match inbuf with
    | none => (SRD_ERR_ARGS, th, [])
    | some buf =>
      if inbuflen = 0 then
        (SRD_ERR_ARGS, th, [])
      else
        let r : DecodeRecord :=
          { time := th, duration := 10, data := buf.take inbuflen }
        if d.py_instance.decodeOk r then
          (SRD_OK, th, [Event.decodeCall d.inst_id r])
        else
          (SRD_ERR_PYTHON, th, [Event.decodeCall d.inst_id r])

/-- Outcome of `srd_session_feed`: a normal return with a status code, or
process termination (`exit(code)`) after printing the per-instance error
status `err`. -/
inductive FeedResult where
  | returned (ret : Int)
  | exited (err : Int) (code : Nat)
deriving DecidableEq

/-- The loop body of `srd_session_feed`: run each instance on the buffer in
list order; any per-instance status other than `SRD_OK` prints the status
and calls `exit(1)`. -/
def feedLoop (insts : List SrdDecoderInstance) (inbuf : Option (List Nat))
    (inbuflen : Nat) (timehack : Int) : FeedResult × Int × List Event :=
  match insts with
  | [] => (FeedResult.returned SRD_OK, timehack, [])
  | d :: rest =>
    let res := srd_run_decoder (some d) inbuf inbuflen timehack
    if res.1 = SRD_OK then
      let res2 := feedLoop rest inbuf inbuflen res.2.1
      (res2.1, res2.2.1, res.2.2 ++ res2.2.2)
    else
      (FeedResult.exited res.1 1, res.2.1, res.2.2)

/-- `srd_session_feed`: feed the buffer to every active instance in list
order; returns the outcome, the state with the updated `_timehack`
counter, and the decode invocation events. -/
def srd_session_feed (st : SrdState) (inbuf : Option (List Nat))
    (inbuflen : Nat) : FeedResult × SrdState × List Event :=
  let r := feedLoop st.decoders inbuf inbuflen st.timehack
  (r.1, { st with timehack := r.2.1 }, r.2.2)

/- ------------------------------------------------------------------ -/
/- Helper lemmas                                                       -/
/- ------------------------------------------------------------------ -/

/-- `h_str` either returns the attribute's string, or fails with
`SRD_ERR_PYTHON` on a missing/non-string attribute. -/
theorem h_str_cases (py_res : PyObj) (key : String) :
    (∃ s, py_res.attrs key = PyAttr.str s ∧ h_str py_res key = Except.ok s) ∨
    (h_str py_res key = Except.error SRD_ERR_PYTHON ∧
     (py_res.attrs key).isStr = false) := by
  cases h : py_res.attrs key
  · right
    simp [h_str, h, PyAttr.isStr]
  · left
    exact ⟨_, rfl, by simp [h_str, h]⟩
  · right
    simp [h_str, h, PyAttr.isStr]

/-- A registry containing no decoder with id `q` yields a NULL lookup. -/
theorem getById_eq_none (pds : List SrdDecoder) (q : String)
    (h : ∀ d ∈ pds, d.id ≠ q) : srd_get_decoder_by_id pds q = none := by
  induction pds with
  | nil => rfl
  | cons dec rest ih =>
    have hd : dec.id ≠ q := h dec (List.mem_cons_self dec rest)
    simp only [srd_get_decoder_by_id, if_neg hd]
    exact ih fun d hm => h d (List.mem_cons_of_mem dec hm)

/-- The linear scan skips a prefix containing no match. -/
theorem getById_append_no_match (pds rest : List SrdDecoder) (q : String)
    (h : ∀ d ∈ pds, d.id ≠ q) :
    srd_get_decoder_by_id (pds ++ rest) q = srd_get_decoder_by_id rest q := by
  induction pds with
  | nil => rfl
  | cons dec tl ih =>
    have hd : dec.id ≠ q := h dec (List.mem_cons_self dec tl)
    simp only [List.cons_append, srd_get_decoder_by_id, if_neg hd]
    exact ih fun d hm => h d (List.mem_cons_of_mem dec hm)

/-- When all eight metadata attributes are strings, `srd_load_decoder`
succeeds and appends exactly the descriptor built from them. -/
theorem load_decoder_ok (st : SrdState) (py_res : PyObj)
    (i nm ln ds lds au em li : String)
    (h1 : py_res.attrs "id" = PyAttr.str i)
    (h2 : py_res.attrs "name" = PyAttr.str nm)
    (h3 : py_res.attrs "longname" = PyAttr.str ln)
    (h4 : py_res.attrs "desc" = PyAttr.str ds)
    (h5 : py_res.attrs "longdesc" = PyAttr.str lds)
    (h6 : py_res.attrs "author" = PyAttr.str au)
    (h7 : py_res.attrs "email" = PyAttr.str em)
    (h8 : py_res.attrs "license" = PyAttr.str li) :
    srd_load_decoder st py_res =
      (SRD_OK,
       { st with list_pds := st.list_pds ++
          [{ id := i, name := nm, longname := ln, desc := ds, longdesc := lds,
             author := au, email := em, license := li, py_decobj := py_res }] }) := by
  simp [srd_load_decoder, h_str, h1, h2, h3, h4, h5, h6, h7, h8]

/-- When any required metadata attribute is missing or not a string,
`srd_load_decoder` fails with `SRD_ERR_PYTHON` and leaves the state
unchanged. -/
theorem load_decoder_fail (st : SrdState) (py_res : PyObj) (k : String)
    (hk : k ∈ requiredKeys) (hbad : (py_res.attrs k).isStr = false) :
    srd_load_decoder st py_res = (SRD_ERR_PYTHON, st) := by
  rcases h_str_cases py_res "id" with ⟨s1, ha1, h1⟩ | ⟨h1, ha1⟩
  · rcases h_str_cases py_res "name" with ⟨s2, ha2, h2⟩ | ⟨h2, ha2⟩
    · rcases h_str_cases py_res "longname" with ⟨s3, ha3, h3⟩ | ⟨h3, ha3⟩
      · rcases h_str_cases py_res "desc" with ⟨s4, ha4, h4⟩ | ⟨h4, ha4⟩
        · rcases h_str_cases py_res "longdesc" with ⟨s5, ha5, h5⟩ | ⟨h5, ha5⟩
          · rcases h_str_cases py_res "author" with ⟨s6, ha6, h6⟩ | ⟨h6, ha6⟩
            · rcases h_str_cases py_res "email" with ⟨s7, ha7, h7⟩ | ⟨h7, ha7⟩
              · rcases h_str_cases py_res "license" with ⟨s8, ha8, h8⟩ | ⟨h8, ha8⟩
                · exfalso
                  simp only [requiredKeys, List.mem_cons, List.not_mem_nil,
                    or_false] at hk
                  rcases hk with rfl | rfl | rfl | rfl | rfl | rfl | rfl | rfl <;>
                    simp_all [PyAttr.isStr]
                · simp [srd_load_decoder, h1, h2, h3, h4, h5, h6, h7, h8]
              · simp [srd_load_decoder, h1, h2, h3, h4, h5, h6, h7]
            · simp [srd_load_decoder, h1, h2, h3, h4, h5, h6]
          · simp [srd_load_decoder, h1, h2, h3, h4, h5]
        · simp [srd_load_decoder, h1, h2, h3, h4]
      · simp [srd_load_decoder, h1, h2, h3]
    · simp [srd_load_decoder, h1, h2]
  · simp [srd_load_decoder, h1]

/-- A 32-bit in-range integer is unchanged by the wrap. -/
theorem wrap32_eq_of_range (x : Int) (h0 : 0 ≤ x) (h1 : x < 2 ^ 31) :
    wrap32 x = x := by
  unfold wrap32
  have h2 : (x + 2 ^ 31) % 2 ^ 32 = x + 2 ^ 31 :=
    Int.emod_eq_of_lt (by omega) (by omega)
  omega

/-- `srd_run_decoder` with a NULL buffer or a zero length: the counter is
still advanced by the length, then the call fails with `SRD_ERR_ARGS`
without any invocation. -/
theorem run_decoder_invalid (d : SrdDecoderInstance) (b : Option (List Nat))
    (n : Nat) (t : Int) (h : b = none ∨ n = 0) :
    srd_run_decoder (some d) b n t = (SRD_ERR_ARGS, wrap32 (t + (n : Int)), []) := by
  rcases h with rfl | rfl
  · simp [srd_run_decoder]
  · cases b <;> simp [srd_run_decoder]

/-- `srd_run_decoder` on valid input whose decode invocation succeeds. -/
theorem run_decoder_ok (d : SrdDecoderInstance) (buf : List Nat) (n : Nat)
    (t : Int) (hn : n ≠ 0)
    (hok : d.py_instance.decodeOk
      { time := wrap32 (t + (n : Int)), duration := 10, data := buf.take n } = true) :
    srd_run_decoder (some d) (some buf) n t =
      (SRD_OK, wrap32 (t + (n : Int)),
       [Event.decodeCall d.inst_id
          { time := wrap32 (t + (n : Int)), duration := 10, data := buf.take n }]) := by
  simp [srd_run_decoder, hn, hok]

/-- `srd_run_decoder` on valid input whose decode invocation raises. -/
theorem run_decoder_err (d : SrdDecoderInstance) (buf : List Nat) (n : Nat)
    (t : Int) (hn : n ≠ 0)
    (hbad : d.py_instance.decodeOk
      { time := wrap32 (t + (n : Int)), duration := 10, data := buf.take n } = false) :
    srd_run_decoder (some d) (some buf) n t =
      (SRD_ERR_PYTHON, wrap32 (t + (n : Int)),
       [Event.decodeCall d.inst_id
          { time := wrap32 (t + (n : Int)), duration := 10, data := buf.take n }]) := by
  simp [srd_run_decoder, hn, hbad]

/-- A single `srd_run_decoder` call delivers an invocation to the given
instance at most once. -/
theorem run_decoder_instOf_cases (d : SrdDecoderInstance) (b : Option (List Nat))
    (n : Nat) (t : Int) :
    ((srd_run_decoder (some d) b n t).2.2).map Event.instOf = [] ∨
    ((srd_run_decoder (some d) b n t).2.2).map Event.instOf = [d.inst_id] := by
  cases b with
  | none =>
    left
    simp [srd_run_decoder]
  | some buf =>
    simp only [srd_run_decoder]
    split_ifs with h1 h2
    · left
      rfl
    · right
      simp [Event.instOf]
    · right
      simp [Event.instOf]

/-- A successful `srd_run_decoder` call delivers exactly one invocation to
the given instance. -/
theorem run_decoder_ok_shape (d : SrdDecoderInstance) (b : Option (List Nat))
    (n : Nat) (t : Int) (h : (srd_run_decoder (some d) b n t).1 = SRD_OK) :
    ((srd_run_decoder (some d) b n t).2.2).map Event.instOf = [d.inst_id] := by
  cases b with
  | none =>
    simp [srd_run_decoder, SRD_ERR_ARGS, SRD_OK] at h
  | some buf =>
    revert h
    simp only [srd_run_decoder]
    split_ifs with h1 h2 <;> intro h
    · simp [SRD_ERR_ARGS, SRD_OK] at h
    · simp [Event.instOf]
    · simp [SRD_ERR_PYTHON, SRD_OK] at h

/-- Update-then-lookup on the probes mapping returns the written value. -/
theorem probeLookup_probeMapSet (m : List (String × Int)) (key : String)
    (v : Int) : probeLookup (probeMapSet m key v) key = some v := by
  induction m with
  | nil => simp [probeMapSet, probeLookup]
  | cons p rest ih =>
    obtain ⟨k0, v0⟩ := p
    by_cases hk : k0 = key
    · simp [probeMapSet, hk, probeLookup]
    · simp [probeMapSet, hk, probeLookup, ih]

/-- The start loop delivers invocations to an initial segment of the
instance list, in list order. -/
theorem startLoop_take (insts : List SrdDecoderInstance) (meta : StartRecord) :
    ∃ k, ((startLoop insts meta).2.map Event.instOf) =
      (insts.map SrdDecoderInstance.inst_id).take k := by
  induction insts with
  | nil => exact ⟨0, rfl⟩
  | cons d rest ih =>
    cases h : d.py_instance.startOk with
    | true =>
      obtain ⟨k, hk⟩ := ih
      exact ⟨k + 1, by simp [startLoop, h, hk, Event.instOf]⟩
    | false =>
      exact ⟨1, by simp [startLoop, h, Event.instOf]⟩

/-- The start loop on a list whose first failing instance is `d`: every
instance before `d` is invoked in order, then `d` is invoked, the loop
aborts with `SRD_ERR_PYTHON`, and nothing after `d` is invoked. -/
theorem startLoop_fail_at (pre : List SrdDecoderInstance)
    (d : SrdDecoderInstance) (post : List SrdDecoderInstance)
    (meta : StartRecord) (hpre : ∀ p ∈ pre, p.py_instance.startOk = true)
    (hd : d.py_instance.startOk = false) :
    startLoop (pre ++ d :: post) meta =
      (SRD_ERR_PYTHON,
       (pre.map fun p => Event.startCall p.inst_id meta) ++
         [Event.startCall d.inst_id meta]) := by
  induction pre with
  | nil => simp [startLoop, hd]
  | cons p tl ih =>
    have hp : p.py_instance.startOk = true := hpre p (List.mem_cons_self p tl)
    have ih2 := ih fun q hq => hpre q (List.mem_cons_of_mem p hq)
    simp [startLoop, hp, ih2]

/-- The feed loop delivers invocations to an initial segment of the
instance list, in list order. -/
theorem feedLoop_take (insts : List SrdDecoderInstance) (b : Option (List Nat))
    (n : Nat) : ∀ t : Int, ∃ k,
    ((feedLoop insts b n t).2.2.map Event.instOf) =
      (insts.map SrdDecoderInstance.inst_id).take k := by
  induction insts with
  | nil => exact fun t => ⟨0, rfl⟩
  | cons d rest ih =>
    intro t
    by_cases hret : (srd_run_decoder (some d) b n t).1 = SRD_OK
    · obtain ⟨k, hk⟩ := ih (srd_run_decoder (some d) b n t).2.1
      exact ⟨k + 1,
        by simp [feedLoop, hret, run_decoder_ok_shape d b n t hret, hk]⟩
    · rcases run_decoder_instOf_cases d b n t with hc | hc
      · exact ⟨0, by simp [feedLoop, hret, hc]⟩
      · exact ⟨1, by simp [feedLoop, hret, hc]⟩

/-- The feed loop on a list whose first always-failing instance is `d`,
fed a valid buffer: every instance before `d` is invoked in order, then
`d` is invoked, and the process exits with status 1 after reporting
`SRD_ERR_PYTHON`; nothing after `d` is invoked. -/
theorem feedLoop_fail_at (pre : List SrdDecoderInstance)
    (d : SrdDecoderInstance) (post : List SrdDecoderInstance)
    (buf : List Nat) (n : Nat) (hn : n ≠ 0)
    (hpre : ∀ p ∈ pre, ∀ r, p.py_instance.decodeOk r = true)
    (hd : ∀ r, d.py_instance.decodeOk r = false) :
    ∀ t : Int,
      (feedLoop (pre ++ d :: post) (some buf) n t).1 =
        FeedResult.exited SRD_ERR_PYTHON 1 ∧
      ((feedLoop (pre ++ d :: post) (some buf) n t).2.2.map Event.instOf) =
        pre.map SrdDecoderInstance.inst_id ++ [d.inst_id] := by
  induction pre with
  | nil =>
    intro t
    have hrun := run_decoder_err d buf n t hn (hd _)
    have hne : ¬ (SRD_ERR_PYTHON = SRD_OK) := by decide
    constructor <;> simp [feedLoop, hrun, hne, Event.instOf]
  | cons p tl ih =>
    intro t
    have hp := hpre p (List.mem_cons_self p tl)
    have hrun := run_decoder_ok p buf n t hn (hp _)
    have ih2 := ih (fun q hq r => hpre q (List.mem_cons_of_mem p hq) r)
      (wrap32 (t + (n : Int)))
    constructor <;> simp [feedLoop, hrun, ih2.1, ih2.2, Event.instOf]

/-- Shift of the synthesized-time sequence under one counter step. -/
theorem rangeTimes_shift (L : Nat) (t : Int) (n : Nat) :
    (List.range (L + 1)).map (fun j : Nat => t + ((j : Int) + 1) * (n : Int)) =
      (t + (n : Int)) ::
        (List.range L).map
          (fun j : Nat => (t + (n : Int)) + ((j : Int) + 1) * (n : Int)) := by
  rw [List.range_succ_eq_map]
  simp only [List.map_cons, List.map_map, List.cons.injEq]
  refine ⟨by norm_num, List.map_congr_left ?_⟩
  intro j hj
  simp only [Function.comp]
  push_cast
  ring

/-- The feed loop on a valid buffer with every decode invocation
succeeding and no counter overflow: it returns `SRD_OK`, advances the
counter by `length · n`, invokes every instance exactly once in list
order, and delivers to the `j`-th instance the time `t + (j+1)·n`. -/
theorem feedLoop_all_ok (insts : List SrdDecoderInstance) (buf : List Nat)
    (n : Nat) (hn : n ≠ 0) :
    ∀ t : Int, (∀ d ∈ insts, ∀ r, d.py_instance.decodeOk r = true) →
      0 ≤ t → t + (insts.length : Int) * (n : Int) < 2 ^ 31 →
      (feedLoop insts (some buf) n t).1 = FeedResult.returned SRD_OK ∧
      (feedLoop insts (some buf) n t).2.1 =
        t + (insts.length : Int) * (n : Int) ∧
      ((feedLoop insts (some buf) n t).2.2.map Event.instOf) =
        insts.map SrdDecoderInstance.inst_id ∧
      ((feedLoop insts (some buf) n t).2.2.map Event.timeOf) =
        (List.range insts.length).map
          (fun j : Nat => t + ((j : Int) + 1) * (n : Int)) := by
  induction insts with
  | nil =>
    intro t _ _ _
    simp [feedLoop]
  | cons d rest ih =>
    intro t hok ht hb
    have hposn : (0 : Int) < (n : Int) := by
      exact_mod_cast Nat.pos_of_ne_zero hn
    have hnn : (0 : Int) ≤ (rest.length : Int) * (n : Int) := by positivity
    have hb2 : t + (n : Int) + (rest.length : Int) * (n : Int) < 2 ^ 31 := by
      have hx : ((rest.length : Int) + 1) * (n : Int) =
          (rest.length : Int) * (n : Int) + (n : Int) := by ring
      simp only [List.length_cons] at hb
      push_cast at hb
      linarith [hx ▸ hb]
    have hw : wrap32 (t + (n : Int)) = t + (n : Int) :=
      wrap32_eq_of_range _ (by linarith) (by linarith)
    have hrun := run_decoder_ok d buf n t hn (hok d (List.mem_cons_self d rest) _)
    rw [hw] at hrun
    have ihh := ih (t + (n : Int))
      (fun p hp r => hok p (List.mem_cons_of_mem d hp) r)
      (by linarith) (by linarith)
    obtain ⟨ih1, ih2, ih3, ih4⟩ := ihh
    refine ⟨?_, ?_, ?_, ?_⟩
    · simp [feedLoop, hrun, ih1]
    · simp only [feedLoop, hrun]
      simp [ih2, List.length_cons]
      ring
    · simp [feedLoop, hrun, ih3, Event.instOf]
    · simp only [feedLoop, hrun]
      simp [ih4, Event.timeOf, List.length_cons, rangeTimes_shift]

/- ------------------------------------------------------------------ -/
/- Concrete fixtures                                                   -/
/- ------------------------------------------------------------------ -/

/-- The initial program state: empty registry, no instances,
`_timehack = 0`. -/
def emptyState : SrdState :=
  { list_pds := [], decoders := [], timehack := 0, next_id := 0 }

/-- A candidate object exposing none of the metadata attributes. -/
def badCandidate : PyObj :=
  { attrs := fun _ => PyAttr.missing, callObj := none }

/-- A candidate object whose `email` attribute is a non-string object;
every other attribute is the string equal to its own key. -/
def badEmailCandidate : PyObj :=
  { attrs := fun key => if key = "email" then PyAttr.nonstr else PyAttr.str key,
    callObj := none }

/-- A candidate object whose `name` attribute is the empty string; every
other attribute is the string equal to its own key. -/
def emptyNameCandidate : PyObj :=
  { attrs := fun key => if key = "name" then PyAttr.str "" else PyAttr.str key,
    callObj := none }

/-- A candidate object whose every metadata attribute is the string equal
to its own key. -/
def goodCandidate : PyObj :=
  { attrs := fun key => PyAttr.str key, callObj := none }

/-- A scripted instance whose probes attribute is an empty mapping and
whose invocations always succeed. -/
def probeInstance : SrdDecoderInstance :=
  { inst_id := 0,
    py_instance :=
      { startOk := true, decodeOk := fun _ => true, probes := some [] } }

/-- An instance (creation index `k`) whose invocations always succeed. -/
def okInst (k : Nat) : SrdDecoderInstance :=
  { inst_id := k,
    py_instance :=
      { startOk := true, decodeOk := fun _ => true, probes := none } }

/-- An instance (creation index `k`) whose invocations always raise. -/
def failInst (k : Nat) : SrdDecoderInstance :=
  { inst_id := k,
    py_instance :=
      { startOk := false, decodeOk := fun _ => false, probes := none } }

/-- A session with a single well-behaved active instance and a fresh
counter. -/
def oneInstState : SrdState :=
  { list_pds := [], decoders := [okInst 0], timehack := 0, next_id := 1 }

/-- A session with two well-behaved active instances and a fresh
counter. -/
def twoInstState : SrdState :=
  { list_pds := [], decoders := [okInst 0, okInst 1], timehack := 0,
    next_id := 2 }

/-- A session with three active instances, where the middle one (creation
index 1) always raises. -/
def threeInstState : SrdState :=
  { list_pds := [], decoders := [okInst 0, failInst 1, okInst 2],
    timehack := 0, next_id := 3 }

/- ------------------------------------------------------------------ -/
/- Claims                                                              -/
/- ------------------------------------------------------------------ -/

/-- C4, counterexample: a candidate with a missing required field makes
`srd_load_decoder` fail with `SRD_ERR_PYTHON` — the scripting-boundary
(SCRIPT) error code, not the SCRIPT_METADATA error code the claim names —
while the registry stays unchanged. -/
theorem load_missing_field_not_metadata_err :
    (srd_load_decoder emptyState badCandidate).1 = SRD_ERR_PYTHON ∧
    SRD_ERR_PYTHON ≠ SRD_ERR_SCRIPT_METADATA ∧
    (srd_load_decoder emptyState badCandidate).2 = emptyState :=
  ⟨rfl, by decide, rfl⟩

/-- C4 (amended): for every candidate object passed to `srd_load_decoder`,
if any of the eight required descriptor fields is missing or not a string,
the call fails with the SCRIPT error code (`SRD_ERR_PYTHON`) and no
descriptor is appended to the registry. -/
theorem load_missing_field_spec (st : SrdState) (py_res : PyObj) (k : String)
    (hk : k ∈ requiredKeys) (hbad : (py_res.attrs k).isStr = false) :
    (srd_load_decoder st py_res).1 = SRD_ERR_PYTHON ∧
    (srd_load_decoder st py_res).2 = st := by
  rw [load_decoder_fail st py_res k hk hbad]
  exact ⟨rfl, rfl⟩

/-- C4 witness: a candidate whose `email` attribute is not a string. -/
theorem load_missing_field_spec_witness :
    (srd_load_decoder emptyState badEmailCandidate).1 = SRD_ERR_PYTHON ∧
    (srd_load_decoder emptyState badEmailCandidate).2 = emptyState :=
  load_missing_field_spec emptyState badEmailCandidate "email"
    (by decide) (by decide)

/-- C6: for every id string not present in the registry,
`srd_instance_new` fails (returns NULL), creates no instance, appends
nothing to the active-instance list, and leaves the whole state — in
particular the registry — unchanged. -/
theorem instance_new_unknown_id_fails (st : SrdState) (id : String)
    (h : ∀ d ∈ st.list_pds, d.id ≠ id) :
    srd_instance_new st id = (none, st) := by
  simp [srd_instance_new, getById_eq_none st.list_pds id h]

/-- C6 witness: `instanceNew "nonexistent"` on the empty registry. -/
theorem instance_new_unknown_id_fails_witness :
    srd_instance_new emptyState "nonexistent" = (none, emptyState) :=
  instance_new_unknown_id_fails emptyState "nonexistent"
    (by intro d hd; simp [emptyState] at hd)

/-- C8, counterexample: a component may supply an empty string for a
metadata field; registration still succeeds and `getById` then returns a
descriptor whose `name` field is the empty string, refuting the claim
that the returned fields are non-empty. -/
theorem getById_empty_field_counterexample :
    (srd_load_decoder emptyState emptyNameCandidate).1 = SRD_OK ∧
    Option.map SrdDecoder.name
      (srd_get_decoder_by_id
        (srd_load_decoder emptyState emptyNameCandidate).2.list_pds "id") =
      some "" :=
  ⟨rfl, rfl⟩

/-- C8 (amended): for every descriptor successfully added to the registry
under an id not previously present, `srd_get_decoder_by_id` on that id
returns a descriptor whose `id` equals the query and whose other metadata
fields are exactly the strings supplied by the component (possibly
empty); for an id with no matching descriptor it returns NULL. -/
theorem getById_spec (st : SrdState) (py_res : PyObj)
    (i nm ln ds lds au em li : String)
    (h1 : py_res.attrs "id" = PyAttr.str i)
    (h2 : py_res.attrs "name" = PyAttr.str nm)
    (h3 : py_res.attrs "longname" = PyAttr.str ln)
    (h4 : py_res.attrs "desc" = PyAttr.str ds)
    (h5 : py_res.attrs "longdesc" = PyAttr.str lds)
    (h6 : py_res.attrs "author" = PyAttr.str au)
    (h7 : py_res.attrs "email" = PyAttr.str em)
    (h8 : py_res.attrs "license" = PyAttr.str li)
    (hfresh : ∀ d ∈ st.list_pds, d.id ≠ i) :
    (srd_load_decoder st py_res).1 = SRD_OK ∧
    srd_get_decoder_by_id (srd_load_decoder st py_res).2.list_pds i =
      some { id := i, name := nm, longname := ln, desc := ds, longdesc := lds,
             author := au, email := em, license := li, py_decobj := py_res } ∧
    (∀ (pds : List SrdDecoder) (q : String),
      (∀ d ∈ pds, d.id ≠ q) → srd_get_decoder_by_id pds q = none) := by
  rw [load_decoder_ok st py_res i nm ln ds lds au em li h1 h2 h3 h4 h5 h6 h7 h8]
  refine ⟨rfl, ?_, getById_eq_none⟩
  rw [getById_append_no_match st.list_pds _ i hfresh]
  simp [srd_get_decoder_by_id]

/-- C8 witness: register a fresh descriptor on the empty registry and look
it up by id. -/
theorem getById_spec_witness :
    (srd_load_decoder emptyState goodCandidate).1 = SRD_OK ∧
    srd_get_decoder_by_id (srd_load_decoder emptyState goodCandidate).2.list_pds
        "id" =
      some { id := "id", name := "name", longname := "longname", desc := "desc",
             longdesc := "longdesc", author := "author", email := "email",
             license := "license", py_decobj := goodCandidate } := by
  have h := getById_spec emptyState goodCandidate "id" "name" "longname" "desc"
    "longdesc" "author" "email" "license" rfl rfl rfl rfl rfl rfl rfl rfl
    (by intro d hd; simp [emptyState] at hd)
  exact ⟨h.1, h.2.1⟩

/-- C9: after `srd_instance_set_probe di name k` succeeds, the instance's
probes mapping yields `k` for key `name` (round-trip), and a second
`srd_instance_set_probe` with the same name and a different index
overwrites the previous value. -/
theorem set_probe_roundtrip_overwrite (di : SrdDecoderInstance) (name : String)
    (k k2 : Int) (m : ProbeMap) (hp : di.py_instance.probes = some m) :
    (srd_instance_set_probe di name k).1 = SRD_OK ∧
    probeOf (srd_instance_set_probe di name k).2 name = some k ∧
    (srd_instance_set_probe (srd_instance_set_probe di name k).2 name k2).1 =
      SRD_OK ∧
    probeOf (srd_instance_set_probe (srd_instance_set_probe di name k).2
      name k2).2 name = some k2 := by
  simp [srd_instance_set_probe, hp, probeOf, probeLookup_probeMapSet]

/-- C1, counterexample: with zero active instances, `srd_session_feed`
with a NULL buffer returns `SRD_OK` — it does not fail with the ARGS
error code, refuting the claim that such a feed always fails regardless
of how many instances are active.  (No decode capability is invoked.) -/
theorem feed_null_ok_when_no_instances :
    (srd_session_feed emptyState none 5).1 = FeedResult.returned SRD_OK ∧
    (srd_session_feed emptyState none 5).2.2 = [] ∧
    SRD_OK ≠ SRD_ERR_ARGS :=
  ⟨rfl, rfl, by decide⟩

/-- C1 (amended): feeding a NULL buffer or a zero length invokes the
decode capability of zero instances; with no active instances the call
returns `SRD_OK`, and with at least one active instance the first
per-instance run fails with the ARGS error code and the session
terminates the process with exit status 1. -/
theorem feed_invalid_args_spec (st : SrdState) (inbuf : Option (List Nat))
    (n : Nat) (hinv : inbuf = none ∨ n = 0) :
    (srd_session_feed st inbuf n).2.2 = [] ∧
    (st.decoders = [] →
      (srd_session_feed st inbuf n).1 = FeedResult.returned SRD_OK) ∧
    (st.decoders ≠ [] →
      (srd_session_feed st inbuf n).1 = FeedResult.exited SRD_ERR_ARGS 1) := by
  cases hD : st.decoders with
  | nil =>
    refine ⟨by simp [srd_session_feed, hD, feedLoop], ?_, ?_⟩
    · intro _
      simp [srd_session_feed, hD, feedLoop]
    · intro hne
      exact absurd rfl hne
  | cons d rest =>
    have hrun := run_decoder_invalid d inbuf n st.timehack hinv
    have hne : ¬ (SRD_ERR_ARGS = SRD_OK) := by decide
    refine ⟨?_, ?_, ?_⟩
    · simp [srd_session_feed, hD, feedLoop, hrun, hne]
    · intro h
      exact absurd h (by simp)
    · intro _
      simp [srd_session_feed, hD, feedLoop, hrun, hne]

/-- C1 witness: a NULL-buffer feed on a session with three active
instances exits the process reporting `SRD_ERR_ARGS`, with zero decode
invocations. -/
theorem feed_invalid_args_spec_witness :
    (srd_session_feed threeInstState none 7).2.2 = [] ∧
    (srd_session_feed threeInstState none 7).1 =
      FeedResult.exited SRD_ERR_ARGS 1 := by
  have h := feed_invalid_args_spec threeInstState none 7 (Or.inl rfl)
  exact ⟨h.1, h.2.2 (by simp [threeInstState])⟩

/-- C2, counterexample: on the very first feed of a single-instance
session (counter 0), a buffer of length 2 is delivered with `time = 2`,
not `time = 0` as the claim states: the counter is incremented by the
length before the decode invocation, so the first delivered time already
includes the current buffer. -/
theorem first_feed_time_not_zero :
    (srd_session_feed oneInstState (some [85, 170]) 2).2.2 =
      [Event.decodeCall 0 { time := 2, duration := 10, data := [85, 170] }] ∧
    (2 : Int) ≠ 0 :=
  ⟨rfl, by decide⟩

/-- C2 (amended): in a session with exactly one active instance, each
successful feed of a valid buffer invokes that instance's decode
capability exactly once with `data` equal to the buffer and `time` equal
to the sum of the lengths of all feeds including the current one (the
counter is pre-incremented by the length): 2 on a first feed of length 2,
and 4 after a second feed of length 2. -/
theorem single_instance_feed_spec (st : SrdState) (d : SrdDecoderInstance)
    (buf : List Nat) (n : Nat) (hone : st.decoders = [d])
    (hok : ∀ r, d.py_instance.decodeOk r = true) (hn : n ≠ 0)
    (ht : 0 ≤ st.timehack) (hb : st.timehack + (n : Int) < 2 ^ 31) :
    srd_session_feed st (some buf) n =
      (FeedResult.returned SRD_OK,
       { st with timehack := st.timehack + (n : Int) },
       [Event.decodeCall d.inst_id
          { time := st.timehack + (n : Int), duration := 10,
            data := buf.take n }]) := by
  have hnn : (0 : Int) ≤ (n : Int) := Int.natCast_nonneg n
  have hw : wrap32 (st.timehack + (n : Int)) = st.timehack + (n : Int) :=
    wrap32_eq_of_range _ (by linarith) hb
  have hrun := run_decoder_ok d buf n st.timehack hn (hok _)
  rw [hw] at hrun
  simp [srd_session_feed, hone, feedLoop, hrun]

/-- C2 witness: two consecutive feeds of length 2 on a fresh
single-instance session deliver `time = 2` then `time = 4`. -/
theorem single_instance_feed_spec_witness :
    srd_session_feed oneInstState (some [85, 170]) 2 =
      (FeedResult.returned SRD_OK, { oneInstState with timehack := 2 },
       [Event.decodeCall 0 { time := 2, duration := 10, data := [85, 170] }]) ∧
    srd_session_feed { oneInstState with timehack := 2 } (some [1, 2]) 2 =
      (FeedResult.returned SRD_OK, { oneInstState with timehack := 4 },
       [Event.decodeCall 0 { time := 4, duration := 10, data := [1, 2] }]) := by
  constructor
  · exact single_instance_feed_spec oneInstState (okInst 0) [85, 170] 2 rfl
      (fun r => rfl) (by decide) (by decide) (by decide)
  · exact single_instance_feed_spec { oneInstState with timehack := 2 }
      (okInst 0) [1, 2] 2 rfl (fun r => rfl) (by decide) (by decide) (by decide)

/-- C3: during a feed of a valid buffer, the first instance whose decode
invocation fails makes the session exit the process (fail-fast, reporting
`SRD_ERR_PYTHON`), and no later-created instance's decode capability is
invoked for that buffer: the delivered invocations are exactly those of
the preceding instances followed by the failing one. -/
theorem feed_fail_fast (st : SrdState) (pre post : List SrdDecoderInstance)
    (d : SrdDecoderInstance) (buf : List Nat) (n : Nat)
    (hsplit : st.decoders = pre ++ d :: post)
    (hpre : ∀ p ∈ pre, ∀ r, p.py_instance.decodeOk r = true)
    (hd : ∀ r, d.py_instance.decodeOk r = false) (hn : n ≠ 0) :
    (srd_session_feed st (some buf) n).1 = FeedResult.exited SRD_ERR_PYTHON 1 ∧
    ((srd_session_feed st (some buf) n).2.2.map Event.instOf) =
      pre.map SrdDecoderInstance.inst_id ++ [d.inst_id] := by
  have h := feedLoop_fail_at pre d post buf n hn hpre hd st.timehack
  simp only [srd_session_feed, hsplit]
  exact ⟨h.1, h.2⟩

/-- C3 witness: in a three-instance session whose middle instance always
raises, a feed reaches instances 0 and 1 only and exits the process. -/
theorem feed_fail_fast_witness :
    (srd_session_feed threeInstState (some [5]) 1).1 =
      FeedResult.exited SRD_ERR_PYTHON 1 ∧
    ((srd_session_feed threeInstState (some [5]) 1).2.2.map Event.instOf) =
      [0, 1] := by
  have h := feed_fail_fast threeInstState [okInst 0] [okInst 2] (failInst 1)
    [5] 1 rfl (by intro p hp r; fin_cases hp; rfl) (fun r => rfl) (by decide)
  exact ⟨h.1, h.2⟩

/-- C5: `srd_session_start` and `srd_session_feed` deliver invocations to
an initial segment of the active-instance list, in list order, and
`srd_instance_new` only ever appends to the end of that list — so
capabilities are always invoked in creation order. -/
theorem invocation_order_follows_creation (st : SrdState) (driver : String)
    (unitsize starttime samplerate : Int) (inbuf : Option (List Nat))
    (n : Nat) (id : String) :
    (∃ k, ((srd_session_start st driver unitsize starttime samplerate).2.map
        Event.instOf) = (st.decoders.map SrdDecoderInstance.inst_id).take k) ∧
    (∃ k, ((srd_session_feed st inbuf n).2.2.map Event.instOf) =
        (st.decoders.map SrdDecoderInstance.inst_id).take k) ∧
    ((srd_instance_new st id).2.decoders = st.decoders ∨
     ∃ di, (srd_instance_new st id).2.decoders = st.decoders ++ [di]) := by
  refine ⟨startLoop_take st.decoders _, feedLoop_take st.decoders inbuf n st.timehack, ?_⟩
  rcases h1 : srd_get_decoder_by_id st.list_pds id with _ | dec
  · left
    simp [srd_instance_new, h1]
  · rcases h2 : dec.py_decobj.callObj with _ | beh
    · left
      simp [srd_instance_new, h1, h2]
    · right
      refine ⟨{ inst_id := st.next_id, py_instance := beh }, ?_⟩
      simp [srd_instance_new, h1, h2]

/-- C7: during `srd_session_start`, the first instance whose start
invocation fails aborts the whole call with `SRD_ERR_PYTHON`; the
instances before it were already invoked (started, with no rollback
operation existing) and no instance after it is invoked. -/
theorem session_start_fail_fast (st : SrdState)
    (pre post : List SrdDecoderInstance) (d : SrdDecoderInstance)
    (driver : String) (unitsize starttime samplerate : Int)
    (hsplit : st.decoders = pre ++ d :: post)
    (hpre : ∀ p ∈ pre, p.py_instance.startOk = true)
    (hd : d.py_instance.startOk = false) :
    (srd_session_start st driver unitsize starttime samplerate).1 =
      SRD_ERR_PYTHON ∧
    ((srd_session_start st driver unitsize starttime samplerate).2.map
        Event.instOf) = pre.map SrdDecoderInstance.inst_id ++ [d.inst_id] := by
  unfold srd_session_start
  rw [hsplit, startLoop_fail_at pre d post _ hpre hd]
  refine ⟨rfl, ?_⟩
  simp [Event.instOf]

/-- C7 witness: in a three-instance session whose middle instance's start
raises, `srd_session_start` reaches instances 0 and 1 only and returns
`SRD_ERR_PYTHON`. -/
theorem session_start_fail_fast_witness :
    (srd_session_start threeInstState "demo" 1 0 1000000).1 =
      SRD_ERR_PYTHON ∧
    ((srd_session_start threeInstState "demo" 1 0 1000000).2.map
        Event.instOf) = [0, 1] := by
  have h := session_start_fail_fast threeInstState [okInst 0] [okInst 2]
    (failInst 1) "demo" 1 0 1000000 rfl (by intro p hp; fin_cases hp; rfl) rfl
  exact ⟨h.1, h.2⟩

/-- C10: the synthesized time counter is one shared counter advanced by
the buffer length once per instance per feed, before the argument
validation: a successful feed of length `n` over `k` instances advances
it by `k·n`; the `j`-th instance receives `time = old + (j+1)·n`, so
distinct instances receive pairwise distinct times for the same buffer;
and even an argument-rejected run advances the counter — in particular a
NULL-buffer feed attempt with at least one active instance leaves the
counter advanced by `n`. -/
theorem timehack_shared_counter_spec (st : SrdState) (buf : List Nat)
    (n : Nat)
    (hok : ∀ d ∈ st.decoders, ∀ r, d.py_instance.decodeOk r = true)
    (hn : n ≠ 0) (ht : 0 ≤ st.timehack)
    (hb : st.timehack + (st.decoders.length : Int) * (n : Int) < 2 ^ 31) :
    (srd_session_feed st (some buf) n).2.1.timehack =
      st.timehack + (st.decoders.length : Int) * (n : Int) ∧
    ((srd_session_feed st (some buf) n).2.2.map Event.timeOf) =
      (List.range st.decoders.length).map
        (fun j : Nat => st.timehack + ((j : Int) + 1) * (n : Int)) ∧
    ((srd_session_feed st (some buf) n).2.2.map Event.timeOf).Nodup ∧
    (∀ (d : SrdDecoderInstance) (b : Option (List Nat)) (m : Nat) (t : Int),
      b = none ∨ m = 0 →
      srd_run_decoder (some d) b m t =
        (SRD_ERR_ARGS, wrap32 (t + (m : Int)), [])) ∧
    (st.decoders ≠ [] →
      (srd_session_feed st none n).2.1.timehack =
        wrap32 (st.timehack + (n : Int))) := by
  obtain ⟨h1, h2, h3, h4⟩ :=
    feedLoop_all_ok st.decoders buf n hn st.timehack hok ht hb
  have htimes : ((srd_session_feed st (some buf) n).2.2.map Event.timeOf) =
      (List.range st.decoders.length).map
        (fun j : Nat => st.timehack + ((j : Int) + 1) * (n : Int)) := by
    simpa [srd_session_feed] using h4
  refine ⟨by simpa [srd_session_feed] using h2, htimes, ?_, ?_, ?_⟩
  · rw [htimes]
    have hinj : Function.Injective
        (fun j : Nat => st.timehack + ((j : Int) + 1) * (n : Int)) := by
      intro a b hab
      simp only at hab
      have hn0 : (n : Int) ≠ 0 := Int.natCast_ne_zero.mpr hn
      have hmul : ((a : Int) + 1) * (n : Int) = ((b : Int) + 1) * (n : Int) := by
        linarith
      have := mul_right_cancel₀ hn0 hmul
      omega
    exact (List.nodup_range _).map hinj
  · intro d b m t hinv
    exact run_decoder_invalid d b m t hinv
  · intro hne
    cases hD : st.decoders with
    | nil => exact absurd hD hne
    | cons d rest =>
      have hrun := run_decoder_invalid d none n st.timehack (Or.inl rfl)
      have hne2 : ¬ (SRD_ERR_ARGS = SRD_OK) := by decide
      simp [srd_session_feed, hD, feedLoop, hrun, hne2]

/-- C10 witness: two instances, a fresh counter and one feed of length 3:
the counter ends at 6, the delivered times are 3 and 6 (distinct), and a
NULL-buffer run/feed still advances the counter by the length. -/
theorem timehack_shared_counter_spec_witness :
    (srd_session_feed twoInstState (some [1, 2, 3]) 3).2.1.timehack = 6 ∧
    ((srd_session_feed twoInstState (some [1, 2, 3]) 3).2.2.map
        Event.timeOf) = [3, 6] ∧
    ((srd_session_feed twoInstState (some [1, 2, 3]) 3).2.2.map
        Event.timeOf).Nodup ∧
    srd_run_decoder (some (okInst 0)) none 3 0 = (SRD_ERR_ARGS, 3, []) ∧
    (srd_session_feed twoInstState none 3).2.1.timehack = 3 := by
  have h := timehack_shared_counter_spec twoInstState [1, 2, 3] 3
    (by intro d hd r; fin_cases hd <;> rfl) (by decide) (by decide) (by decide)
  refine ⟨h.1, ?_, h.2.2.1, ?_, ?_⟩
  · rw [h.2.1]
    rfl
  · have h4 := h.2.2.2.1 (okInst 0) none 3 0 (Or.inl rfl)
    rw [h4]
    rfl
  · have h5 := h.2.2.2.2 (by simp [twoInstState])
    rw [h5]
    rfl

/-- C9 witness: set probe "DATA" to 3 then overwrite it with 4. -/
theorem set_probe_roundtrip_overwrite_witness :
    (srd_instance_set_probe probeInstance "DATA" 3).1 = SRD_OK ∧
    probeOf (srd_instance_set_probe probeInstance "DATA" 3).2 "DATA" = some 3 ∧
    (srd_instance_set_probe (srd_instance_set_probe probeInstance "DATA" 3).2
      "DATA" 4).1 = SRD_OK ∧
    probeOf (srd_instance_set_probe (srd_instance_set_probe probeInstance
      "DATA" 3).2 "DATA" 4).2 "DATA" = some 4 :=
  set_probe_roundtrip_overwrite probeInstance "DATA" 3 4 [] rfl

end Sigrokdecode
